import Mathlib

/-!
Verification of `pdf_monitor.py`: a scheduled diffing job that fetches one
web page, extracts the PDF links, diffs them against a persisted JSON state
file, notifies on new links and persists the full current set.

The embedding is shallow: the HTTP fetch, the HTML parse and the push POST
are external collaborators, modelled by their observable outcomes
(`FetchResponse`, `PostOutcome`); the pure logic of the script
(`find_pdf_links`, `load_old_links`, `save_links`, `send_push`, `main`) is
translated function by function. Python string primitives (`strip`,
`lower`, `endswith`, `sorted`, `urljoin`) are modelled by structurally
recursive functions over `List Char` so that every definition computes.
-/

/-- Model of Python `str.strip()` (default whitespace stripping; the
claims only exercise ASCII whitespace). -/
def pyStrip (s : String) : String :=
  String.mk (((s.data.dropWhile Char.isWhitespace).reverse.dropWhile
    Char.isWhitespace).reverse)

/-- Model of Python `str.lower()` (ASCII case folding; the `.pdf` suffix
test only involves ASCII). -/
def pyLower (s : String) : String :=
  String.mk (s.data.map Char.toLower)

/-- Model of Python `str.endswith(suffix)`. -/
def pyEndsWith (s suffix : String) : Bool :=
  suffix.data.isSuffixOf s.data

/-- Python's lexicographic-by-code-point string order, as used by
`sorted(...)`. -/
def strLe (a b : String) : Prop :=
  a.data ≤ b.data

instance : DecidableRel strLe :=
  fun a b => inferInstanceAs (Decidable (a.data ≤ b.data))

instance : IsTotal String strLe :=
  ⟨fun a b => le_total a.data b.data⟩

instance : IsTrans String strLe :=
  ⟨fun _ _ _ h1 h2 => le_trans h1 h2⟩

instance : IsAntisymm String strLe := by
  refine ⟨fun a b h1 h2 => ?_⟩
  cases a
  cases b
  exact congrArg String.mk (le_antisymm h1 h2)

/-- Sorting a multiset of strings: lift insertion sort over the quotient
(well defined because sorting is permutation-invariant). -/
def msSort (m : Multiset String) : List String :=
  Quot.liftOn m (List.insertionSort strLe)
    (fun a b h => List.eq_of_perm_of_sorted
      (((List.perm_insertionSort strLe a).trans h).trans
        (List.perm_insertionSort strLe b).symm)
      (List.sorted_insertionSort strLe a)
      (List.sorted_insertionSort strLe b))

/-- Model of Python `sorted(links)` for a set of strings: the ascending
enumeration of its elements. -/
def sortedLinks (s : Finset String) : List String :=
  msSort s.val

/-- Python values that can live in a Python `set` in this program:
the hashable JSON scalars (`str`, numbers, `bool`, `None`). -/
inductive PyVal
  | str (s : String)
  | num (n : Int)
  | bool (b : Bool)
  | none
deriving DecidableEq

/-- The JSON values `json.load` can produce. Numbers are modelled as
integers (floats play no role in the claims). -/
inductive Json
  | null
  | bool (b : Bool)
  | num (n : Int)
  | str (s : String)
  | arr (elems : List Json)
  | obj (fields : List (String × Json))

/-- Python truthiness of a JSON value: `None`, `False`, `0`, `""`, `[]`,
`{}` are falsy, everything else truthy. -/
def Json.truthy : Json → Bool
  | .null => false
  | .bool b => b
  | .num n => n != 0
  | .str s => !s.data.isEmpty
  | .arr elems => !elems.isEmpty
  | .obj fields => !fields.isEmpty

/-- `isinstance(data, list)`. -/
def Json.isArr : Json → Bool
  | .arr _ => true
  | _ => false

/-- A JSON scalar as a hashable Python value; `none` for `list`/`dict`
elements, which are unhashable and make `set(...)` raise `TypeError`. -/
def Json.toPyVal? : Json → Option PyVal
  | .null => some .none
  | .bool b => some (.bool b)
  | .num n => some (.num n)
  | .str s => some (.str s)
  | .arr _ => Option.none
  | .obj _ => Option.none

/-- The elements of a Python list as hashable values, or `none` as soon as
one element is unhashable. -/
def pyValsOfList : List Json → Option (List PyVal)
  | [] => some []
  | j :: rest =>
    match j.toPyVal?, pyValsOfList rest with
    | some v, some vs => some (v :: vs)
    | _, _ => Option.none

/-- `set(data)` for a Python list: succeeds iff every element is hashable,
otherwise raises (`Option.none`). -/
def pySetOfList (elems : List Json) : Option (Finset PyVal) :=
  (pyValsOfList elems).map List.toFinset

/-- `set(data)` for a truthy non-list JSON value: a string iterates over its
characters, a dict over its keys; numbers and booleans are not iterable and
raise `TypeError` (`Option.none`). -/
def pySetOfOther : Json → Option (Finset PyVal)
  | .str s => some ((s.data.map (fun c => PyVal.str (String.singleton c))).toFinset)
  | .obj fields => some ((fields.map (fun kv => PyVal.str kv.1)).toFinset)
  | _ => Option.none

/-- The state file as `load_old_links` observes it: absent, present but not
parseable as JSON, or parsed to a JSON value. -/
inductive FileState
  | absent
  | malformed
  | parsed (j : Json)

/-- What a call to `load_old_links` returns and whether it printed the
`"Warning: could not load state"` line. -/
structure LoadResult where
  links : Finset PyVal
  warned : Bool
deriving DecidableEq

/-- `load_old_links`: empty set if the file is absent; for a parsed list,
`set(data)`; otherwise `set(data or [])`; any exception inside the `try`
(parse failure, or `TypeError` from `set`) is caught with a warning and an
empty set. -/
def load_old_links : FileState → LoadResult
  | .absent => ⟨∅, false⟩
  | .malformed => ⟨∅, true⟩
  | .parsed j =>
    match j with
    | .arr elems =>
      match pySetOfList elems with
      | some s => ⟨s, false⟩
      | Option.none => ⟨∅, true⟩
    | _ =>
      if j.truthy then
        match pySetOfOther j with
        | some s => ⟨s, false⟩
        | Option.none => ⟨∅, true⟩
      else ⟨∅, false⟩

/-- `save_links`: writes `sorted(links)` as a JSON array, fully replacing
the file contents. -/
def save_links (links : Finset String) : FileState :=
  .parsed (.arr ((sortedLinks links).map Json.str))

/-- Split a character list at the first occurrence of `"://"`, if any. -/
def splitSchemeSep : List Char → Option (List Char × List Char)
  | [] => Option.none
  | c :: rest =>
    if (c :: rest).take 3 = [':', '/', '/'] then some ([], rest.drop 2)
    else
      match splitSchemeSep rest with
      | some (pre, post) => some (c :: pre, post)
      | Option.none => Option.none

/-- Whether a reference already carries a scheme separator `"://"`. -/
def hasSchemeSep (s : String) : Bool :=
  (splitSchemeSep s.data).isSome

/-- The scheme-and-authority part of an absolute URL,
e.g. `"http://host"` of `"http://host/a/b"`. -/
def schemeAuthority (url : String) : String :=
  match splitSchemeSep url.data with
  | some (sch, rest) =>
    String.mk (sch ++ [':', '/', '/'] ++ rest.takeWhile (· ≠ '/'))
  | Option.none => url

/-- The directory of an absolute URL: everything up to and including the
last `'/'` of its path (`"http://host/a/"` of `"http://host/a/b.html"`). -/
def baseDir (url : String) : String :=
  match splitSchemeSep url.data with
  | some (sch, rest) =>
    let host := rest.takeWhile (· ≠ '/')
    let path := rest.dropWhile (· ≠ '/')
    if path.isEmpty then String.mk (sch ++ [':', '/', '/'] ++ host ++ ['/'])
    else
      String.mk (sch ++ [':', '/', '/'] ++ host ++
        (path.reverse.dropWhile (· ≠ '/')).reverse)
  | Option.none => url

/-- Model of `requests.compat.urljoin` (i.e. `urllib.parse.urljoin`,
RFC 3986 relative-reference resolution), restricted to the href shapes the
claims exercise: already-absolute URLs, scheme-relative (`//…`),
host-relative (`/…`) and path-relative references. Query/fragment handling
and dot-segment normalization are outside the model. -/
def urljoin (base href : String) : String :=
  if href.data.isEmpty then base
  else if hasSchemeSep href then href
  else if ['/', '/'].isPrefixOf href.data then
    String.mk (base.data.takeWhile (· ≠ ':')) ++ ":" ++ href
  else if ['/'].isPrefixOf href.data then schemeAuthority base ++ href
  else baseDir base ++ href

/-- The observable outcome of the `requests.get` call: the final URL after
any redirects (`r.url`) and the `href` attribute values of all `<a>`
elements of the body, in document order. -/
structure FetchResponse where
  finalUrl : String
  hrefs : List String

/-- The loop body of `find_pdf_links`, parameterized by the base URL the
accepted href is resolved against. -/
def extractStep (base : String) (links : Finset String) (a : String) :
    Finset String :=
  let href := pyStrip a
  if pyEndsWith (pyLower href) ".pdf" then insert (urljoin base href) links
  else links

/-- `find_pdf_links`: strip each href, keep it iff its lowercase form ends
in `".pdf"`, resolve against the `url` argument (the requested URL) and
collect into a set. -/
def find_pdf_links (url : String) (resp : FetchResponse) : Finset String :=
  resp.hrefs.foldl (extractStep url) ∅

/-- Modelled from the spec (not the source): the extractor as the spec
words it, resolving each accepted href against the request's *final* URL
(`resp.finalUrl`, the URL after any redirects) instead of the requested
one. Kept only to compare with `find_pdf_links`. -/
def find_pdf_links_spec (_url : String) (resp : FetchResponse) : Finset String :=
  resp.hrefs.foldl (extractStep resp.finalUrl) ∅

/-- Truthiness of an optional environment value: present and non-empty. -/
def truthyOpt : Option String → Bool
  | Option.none => false
  | some s => !s.data.isEmpty

/-- What the `requests.post` to the Pushover endpoint would do if issued:
raise, or return a response with a status code and body text. -/
inductive PostOutcome
  | exception
  | response (status : Nat) (text : String)

/-- The log line `send_push` prints. -/
inductive PushLog
  | keysMissing
  | sent
  | errorStatus (status : Nat) (text : String)
  | exceptionCaught
deriving DecidableEq

/-- The observable outcome of a `send_push` call: whether the POST was
issued, the `message` form field it carried, and the log line. -/
structure PushOutcome where
  networkCalled : Bool
  payload : Option String
  log : PushLog
deriving DecidableEq

/-- `send_push`: skip (no network call) unless both Pushover keys are
truthy; otherwise POST once, report non-200 statuses, and catch any
exception. Total: it never propagates a failure. -/
def send_push (userKey appToken : Option String) (post : PostOutcome)
    (message : String) : PushOutcome :=
  if !(truthyOpt userKey && truthyOpt appToken) then
    ⟨false, Option.none, .keysMissing⟩
  else
    match post with
    | .exception => ⟨true, some message, .exceptionCaught⟩
    | .response status text =>
      if status == 200 then ⟨true, some message, .sent⟩
      else ⟨true, some message, .errorStatus status text⟩

/-- An externally visible effect of a run, in order of occurrence. -/
inductive Event
  | notify (msg : String)
  | save (links : Finset String)
deriving DecidableEq

/-- The terminal log line of a run of `main`. -/
inductive RunLog
  | fetchError
  | noLinksFound
  | newPdfs (sorted : List String)
  | noNew
deriving DecidableEq

/-- Everything a run of `main` depends on: the outcome of
`find_pdf_links` (which may raise), the state file, the Pushover
environment and what the network would do on a push POST. -/
structure RunInput where
  fetchResult : Except Unit (Finset String)
  fileState : FileState
  userKey : Option String
  appToken : Option String
  postResult : PostOutcome

/-- The observable outcome of a run of `main`. -/
structure RunOutcome where
  fileAfter : FileState
  events : List Event
  push : Option PushOutcome
  log : RunLog

/-- `current - old` in `main`: the set difference of the current string
set against the loaded (possibly heterogeneous) Python set. -/
def newLinks (current : Finset String) (old : Finset PyVal) : Finset String :=
  current.filter (fun s => PyVal.str s ∉ old)

namespace PdfMonitor

/-- `main`: fetch (abort on failure), abort if no links found, load prior
state, diff; on new links notify then save the full current set, else do
nothing. -/
def main (inp : RunInput) : RunOutcome :=
  match inp.fetchResult with
  | .error _ =>
    { fileAfter := inp.fileState, events := [], push := Option.none,
      log := .fetchError }
  | .ok current =>
    if current = ∅ then
      { fileAfter := inp.fileState, events := [], push := Option.none,
        log := .noLinksFound }
    else
      let old := (load_old_links inp.fileState).links
      let new := newLinks current old
      if new = ∅ then
        { fileAfter := inp.fileState, events := [], push := Option.none,
          log := .noNew }
      else
        let msg := "Neue PDFs entdeckt:\n" ++
          String.intercalate "\n" (sortedLinks new)
        let po := send_push inp.userKey inp.appToken inp.postResult msg
        { fileAfter := save_links current,
          events := [.notify msg, .save current],
          push := some po,
          log := .newPdfs (sortedLinks new) }

end PdfMonitor

theorem msSort_mem {x : String} {m : Multiset String} : x ∈ msSort m ↔ x ∈ m :=
  Quot.inductionOn m fun l => (List.perm_insertionSort strLe l).mem_iff

theorem msSort_sorted (m : Multiset String) : (msSort m).Sorted strLe :=
  Quot.inductionOn m fun l => List.sorted_insertionSort strLe l

theorem sortedLinks_mem {x : String} {s : Finset String} :
    x ∈ sortedLinks s ↔ x ∈ s :=
  msSort_mem

theorem sortedLinks_sorted (s : Finset String) :
    (sortedLinks s).Sorted strLe :=
  msSort_sorted s.val

theorem sortedLinks_toFinset (s : Finset String) :
    (sortedLinks s).toFinset = s :=
  Finset.ext fun x => by simp [List.mem_toFinset, sortedLinks_mem]

theorem pyValsOfList_str (l : List String) :
    pyValsOfList (l.map Json.str) = some (l.map PyVal.str) := by
  induction l with
  | nil => rfl
  | cons a t ih => simp [pyValsOfList, ih, Json.toPyVal?]

theorem load_save (s : Finset String) :
    load_old_links (save_links s) = ⟨s.image PyVal.str, false⟩ := by
  have h : pySetOfList ((sortedLinks s).map Json.str) =
      some ((sortedLinks s).map PyVal.str).toFinset := by
    simp [pySetOfList, pyValsOfList_str]
  have h2 : ((sortedLinks s).map PyVal.str).toFinset = s.image PyVal.str := by
    ext x
    simp [List.mem_toFinset, List.mem_map, sortedLinks_mem]
  simp [save_links, load_old_links, h, h2]

theorem mem_foldl_extractStep (base : String) (l : List String)
    (init : Finset String) (x : String) :
    x ∈ l.foldl (extractStep base) init ↔
      x ∈ init ∨ ∃ h ∈ l, pyEndsWith (pyLower (pyStrip h)) ".pdf" = true ∧
        x = urljoin base (pyStrip h) := by
  induction l generalizing init with
  | nil => simp
  | cons a t ih =>
    by_cases hp : pyEndsWith (pyLower (pyStrip a)) ".pdf" = true
    · simp only [List.foldl_cons, ih, extractStep, hp, if_true,
        Finset.mem_insert, List.mem_cons]
      constructor
      · rintro ((hx | hx) | ⟨b, hb, hacc, hx⟩)
        · exact Or.inr ⟨a, Or.inl rfl, hp, hx⟩
        · exact Or.inl hx
        · exact Or.inr ⟨b, Or.inr hb, hacc, hx⟩
      · rintro (hx | ⟨b, hb | hb, hacc, hx⟩)
        · exact Or.inl (Or.inr hx)
        · exact Or.inl (Or.inl (hb ▸ hx))
        · exact Or.inr ⟨b, hb, hacc, hx⟩
    · simp only [List.foldl_cons, ih, extractStep, hp, if_false, List.mem_cons]
      constructor
      · rintro (hx | ⟨b, hb, hacc, hx⟩)
        · exact Or.inl hx
        · exact Or.inr ⟨b, Or.inr hb, hacc, hx⟩
      · rintro (hx | ⟨b, hb | hb, hacc, hx⟩)
        · exact Or.inl hx
        · exact absurd (hb ▸ hacc) hp
        · exact Or.inr ⟨b, hb, hacc, hx⟩

theorem mem_find_pdf_links {url : String} {resp : FetchResponse} {x : String} :
    x ∈ find_pdf_links url resp ↔
      ∃ h ∈ resp.hrefs, pyEndsWith (pyLower (pyStrip h)) ".pdf" = true ∧
        x = urljoin url (pyStrip h) := by
  simpa [find_pdf_links] using mem_foldl_extractStep url resp.hrefs ∅ x

theorem mem_find_pdf_links_spec {url : String} {resp : FetchResponse}
    {x : String} :
    x ∈ find_pdf_links_spec url resp ↔
      ∃ h ∈ resp.hrefs, pyEndsWith (pyLower (pyStrip h)) ".pdf" = true ∧
        x = urljoin resp.finalUrl (pyStrip h) := by
  simpa [find_pdf_links_spec] using
    mem_foldl_extractStep resp.finalUrl resp.hrefs ∅ x

/-- A state file holding one previously seen link. -/
def exFileA : FileState :=
  .parsed (.arr [.str "http://h/a.pdf"])

/-- A run that finds one genuinely new link. -/
def exInputNew : RunInput :=
  ⟨.ok {"http://h/a.pdf", "http://h/b.pdf"}, exFileA, Option.none,
    Option.none, .exception⟩

/-- A run whose current set is a strict subset of the stored one. -/
def exInputNoNew : RunInput :=
  ⟨.ok {"http://h/a.pdf"},
    .parsed (.arr [.str "http://h/a.pdf", .str "http://h/b.pdf"]),
    Option.none, Option.none, .exception⟩

/-- A run whose fetch raises. -/
def exInputErr : RunInput :=
  ⟨.error (), exFileA, Option.none, Option.none, .exception⟩

/-- A run that extracts no links at all. -/
def exInputEmpty : RunInput :=
  ⟨.ok ∅, exFileA, Option.none, Option.none, .exception⟩

theorem main_fetch_error (inp : RunInput) (e : Unit)
    (hf : inp.fetchResult = .error e) :
    PdfMonitor.main inp =
      { fileAfter := inp.fileState, events := [], push := Option.none,
        log := .fetchError } := by
  simp [PdfMonitor.main, hf]

theorem main_empty (inp : RunInput) (hf : inp.fetchResult = .ok ∅) :
    PdfMonitor.main inp =
      { fileAfter := inp.fileState, events := [], push := Option.none,
        log := .noLinksFound } := by
  simp [PdfMonitor.main, hf]

theorem main_no_new (inp : RunInput) (current : Finset String)
    (hf : inp.fetchResult = .ok current) (hne : current ≠ ∅)
    (hempty : newLinks current (load_old_links inp.fileState).links = ∅) :
    PdfMonitor.main inp =
      { fileAfter := inp.fileState, events := [], push := Option.none,
        log := .noNew } := by
  simp [PdfMonitor.main, hf, hne, hempty]

theorem main_new (inp : RunInput) (current : Finset String)
    (hf : inp.fetchResult = .ok current) (hne : current ≠ ∅)
    (hnew : newLinks current (load_old_links inp.fileState).links ≠ ∅) :
    PdfMonitor.main inp =
      { fileAfter := save_links current,
        events := [.notify ("Neue PDFs entdeckt:\n" ++ String.intercalate "\n"
            (sortedLinks (newLinks current (load_old_links inp.fileState).links))),
          .save current],
        push := some (send_push inp.userKey inp.appToken inp.postResult
          ("Neue PDFs entdeckt:\n" ++ String.intercalate "\n"
            (sortedLinks (newLinks current (load_old_links inp.fileState).links)))),
        log := .newPdfs
          (sortedLinks (newLinks current (load_old_links inp.fileState).links)) } := by
  simp [PdfMonitor.main, hf, hne, hnew]

/-- C1: when the extracted current set is non-empty and `current − old` is
non-empty, the run emits exactly one notify event whose message lists
exactly the elements of `current − old`, sorted, one per line, followed by
one save event carrying the full current set; afterwards the persisted
file parses back to exactly the full current link set. -/
theorem spec_C1_new_links_notify_then_save_full (inp : RunInput)
    (current : Finset String) (hf : inp.fetchResult = .ok current)
    (hne : current ≠ ∅)
    (hnew : newLinks current (load_old_links inp.fileState).links ≠ ∅) :
    (PdfMonitor.main inp).events =
        [.notify ("Neue PDFs entdeckt:\n" ++ String.intercalate "\n"
            (sortedLinks (newLinks current (load_old_links inp.fileState).links))),
          .save current] ∧
      (sortedLinks (newLinks current (load_old_links inp.fileState).links)).toFinset =
        newLinks current (load_old_links inp.fileState).links ∧
      (sortedLinks (newLinks current (load_old_links inp.fileState).links)).Sorted
        strLe ∧
      (PdfMonitor.main inp).fileAfter = save_links current ∧
      load_old_links ((PdfMonitor.main inp).fileAfter) =
        ⟨current.image PyVal.str, false⟩ := by
  rw [main_new inp current hf hne hnew]
  exact ⟨rfl, sortedLinks_toFinset _, sortedLinks_sorted _, rfl,
    load_save current⟩

theorem spec_C1_witness :
    (PdfMonitor.main exInputNew).events =
        [.notify ("Neue PDFs entdeckt:\n" ++ String.intercalate "\n"
            (sortedLinks (newLinks {"http://h/a.pdf", "http://h/b.pdf"}
              (load_old_links exInputNew.fileState).links))),
          .save {"http://h/a.pdf", "http://h/b.pdf"}] ∧
      (sortedLinks (newLinks {"http://h/a.pdf", "http://h/b.pdf"}
          (load_old_links exInputNew.fileState).links)).toFinset =
        newLinks {"http://h/a.pdf", "http://h/b.pdf"}
          (load_old_links exInputNew.fileState).links ∧
      (sortedLinks (newLinks {"http://h/a.pdf", "http://h/b.pdf"}
          (load_old_links exInputNew.fileState).links)).Sorted strLe ∧
      (PdfMonitor.main exInputNew).fileAfter =
        save_links {"http://h/a.pdf", "http://h/b.pdf"} ∧
      load_old_links ((PdfMonitor.main exInputNew).fileAfter) =
        ⟨({"http://h/a.pdf", "http://h/b.pdf"} : Finset String).image PyVal.str,
          false⟩ :=
  spec_C1_new_links_notify_then_save_full exInputNew
    {"http://h/a.pdf", "http://h/b.pdf"} rfl (by decide) (by decide)

/-- C2: when the extracted current set is non-empty but `current − old` is
empty (in particular when `current = old` as sets), no save and no notify
occurs and the state file is untouched. -/
theorem spec_C2_no_delta_no_write (inp : RunInput) (current : Finset String)
    (hf : inp.fetchResult = .ok current) (hne : current ≠ ∅)
    (hempty : newLinks current (load_old_links inp.fileState).links = ∅) :
    (PdfMonitor.main inp).events = [] ∧
      (PdfMonitor.main inp).fileAfter = inp.fileState ∧
      (PdfMonitor.main inp).push = Option.none := by
  rw [main_no_new inp current hf hne hempty]
  exact ⟨rfl, rfl, rfl⟩

theorem spec_C2_witness :
    (PdfMonitor.main exInputNoNew).events = [] ∧
      (PdfMonitor.main exInputNoNew).fileAfter = exInputNoNew.fileState ∧
      (PdfMonitor.main exInputNoNew).push = Option.none :=
  spec_C2_no_delta_no_write exInputNoNew {"http://h/a.pdf"} rfl (by decide)
    (by decide)

/-- C3: when the extractor raises, the run logs the fetch error and exits
with no notify, no save and the state file exactly as before. -/
theorem spec_C3_fetch_failure_conservative (inp : RunInput) (e : Unit)
    (hf : inp.fetchResult = .error e) :
    (PdfMonitor.main inp).fileAfter = inp.fileState ∧
      (PdfMonitor.main inp).events = [] ∧
      (PdfMonitor.main inp).push = Option.none ∧
      (PdfMonitor.main inp).log = .fetchError := by
  rw [main_fetch_error inp e hf]
  exact ⟨rfl, rfl, rfl, rfl⟩

theorem spec_C3_witness :
    (PdfMonitor.main exInputErr).fileAfter = exInputErr.fileState ∧
      (PdfMonitor.main exInputErr).events = [] ∧
      (PdfMonitor.main exInputErr).push = Option.none ∧
      (PdfMonitor.main exInputErr).log = .fetchError :=
  spec_C3_fetch_failure_conservative exInputErr () rfl

/-- C4: `save_links` writes the set as one sorted JSON array of strings
(full overwrite of the file contents), and `load_old_links` immediately
afterwards returns exactly the saved set (embedded as Python strings)
without warning. -/
theorem spec_C4_save_load_roundtrip (s : Finset String) :
    save_links s = .parsed (.arr ((sortedLinks s).map Json.str)) ∧
      (sortedLinks s).Sorted strLe ∧
      (sortedLinks s).toFinset = s ∧
      load_old_links (save_links s) = ⟨s.image PyVal.str, false⟩ :=
  ⟨rfl, sortedLinks_sorted s, sortedLinks_toFinset s, load_save s⟩

/-- C5: a URL is in the extracted set iff some href on the page, once
stripped of surrounding whitespace, has a lowercase form ending in
`".pdf"` and resolves to that URL; the result is a `Finset`, so duplicate
resolved URLs collapse. -/
theorem spec_C5_pdf_suffix_acceptance (url : String) (resp : FetchResponse)
    (x : String) :
    x ∈ find_pdf_links url resp ↔
      ∃ h ∈ resp.hrefs, pyEndsWith (pyLower (pyStrip h)) ".pdf" = true ∧
        x = urljoin url (pyStrip h) :=
  mem_find_pdf_links

theorem spec_C6_counterexample :
    find_pdf_links "http://old.example/dir/page.html"
        ⟨"http://new.example/other/", ["doc.pdf"]⟩
        = {"http://old.example/dir/doc.pdf"} ∧
      find_pdf_links_spec "http://old.example/dir/page.html"
        ⟨"http://new.example/other/", ["doc.pdf"]⟩
        = {"http://new.example/other/doc.pdf"} ∧
      find_pdf_links "http://old.example/dir/page.html"
        ⟨"http://new.example/other/", ["doc.pdf"]⟩
        ≠ find_pdf_links_spec "http://old.example/dir/page.html"
          ⟨"http://new.example/other/", ["doc.pdf"]⟩ :=
  ⟨by decide, by decide, by decide⟩

/-- C6 (amended): every accepted href is resolved against the *requested*
URL (the `url` argument), and the extracted set is independent of the
final URL the request was redirected to. -/
theorem spec_C6_resolves_against_requested_url (url u1 u2 : String)
    (hrefs : List String) (x : String)
    (hx : x ∈ find_pdf_links url ⟨u1, hrefs⟩) :
    find_pdf_links url ⟨u1, hrefs⟩ = find_pdf_links url ⟨u2, hrefs⟩ ∧
      ∃ h ∈ hrefs, x = urljoin url (pyStrip h) := by
  constructor
  · ext y
    rw [mem_find_pdf_links, mem_find_pdf_links]
  · obtain ⟨h, hh, _, hxu⟩ := mem_find_pdf_links.mp hx
    exact ⟨h, hh, hxu⟩

theorem spec_C6_witness :
    (find_pdf_links "http://old.example/dir/page.html"
        ⟨"http://new.example/other/", ["doc.pdf"]⟩ =
      find_pdf_links "http://old.example/dir/page.html"
        ⟨"http://x/", ["doc.pdf"]⟩) ∧
      ∃ h ∈ ["doc.pdf"],
        "http://old.example/dir/doc.pdf" =
          urljoin "http://old.example/dir/page.html" (pyStrip h) :=
  spec_C6_resolves_against_requested_url "http://old.example/dir/page.html"
    "http://new.example/other/" "http://x/" ["doc.pdf"]
    "http://old.example/dir/doc.pdf" (by decide)

/-- C7: `load_old_links` is total; an absent file yields the empty set
without warning, a malformed file yields the empty set with a warning, and
a parsed non-list falsy value is coerced to the empty set without
warning. -/
theorem spec_C7_load_never_fails :
    load_old_links .absent = ⟨∅, false⟩ ∧
      load_old_links .malformed = ⟨∅, true⟩ ∧
      ∀ j : Json, j.isArr = false → j.truthy = false →
        load_old_links (.parsed j) = ⟨∅, false⟩ := by
  refine ⟨rfl, rfl, fun j h1 h2 => ?_⟩
  cases j <;> simp_all [load_old_links, Json.isArr, Json.truthy]

theorem spec_C7_witness :
    load_old_links (.parsed Json.null) = ⟨∅, false⟩ :=
  spec_C7_load_never_fails.2.2 Json.null rfl rfl

/-- C8: when the extractor succeeds with an empty set, the run logs that
and exits with no notify, no save and the state file untouched. -/
theorem spec_C8_empty_extraction_no_effects (inp : RunInput)
    (hf : inp.fetchResult = .ok ∅) :
    (PdfMonitor.main inp).fileAfter = inp.fileState ∧
      (PdfMonitor.main inp).events = [] ∧
      (PdfMonitor.main inp).push = Option.none ∧
      (PdfMonitor.main inp).log = .noLinksFound := by
  rw [main_empty inp hf]
  exact ⟨rfl, rfl, rfl, rfl⟩

theorem spec_C8_witness :
    (PdfMonitor.main exInputEmpty).fileAfter = exInputEmpty.fileState ∧
      (PdfMonitor.main exInputEmpty).events = [] ∧
      (PdfMonitor.main exInputEmpty).push = Option.none ∧
      (PdfMonitor.main exInputEmpty).log = .noLinksFound :=
  spec_C8_empty_extraction_no_effects exInputEmpty rfl

/-- C9: `send_push` is total (never throws): it issues the POST iff both
credentials are truthy, swallows an exception into a log line, logs a
non-200 status; and whenever new links exist, `main` saves the full
current set whatever the credentials and the network do. -/
theorem spec_C9_notify_best_effort (k t : Option String) (status : Nat)
    (text msg : String) (post : PostOutcome) (inp : RunInput)
    (current : Finset String) (hf : inp.fetchResult = .ok current)
    (hne : current ≠ ∅)
    (hnew : newLinks current (load_old_links inp.fileState).links ≠ ∅) :
    (send_push k t post msg).networkCalled = (truthyOpt k && truthyOpt t) ∧
      send_push k t .exception msg =
        (if truthyOpt k && truthyOpt t then
          ⟨true, some msg, .exceptionCaught⟩
         else ⟨false, Option.none, .keysMissing⟩) ∧
      send_push k t (.response status text) msg =
        (if truthyOpt k && truthyOpt t then
          (if status == 200 then ⟨true, some msg, .sent⟩
           else ⟨true, some msg, .errorStatus status text⟩)
         else ⟨false, Option.none, .keysMissing⟩) ∧
      (PdfMonitor.main inp).fileAfter = save_links current := by
  refine ⟨?_, ?_, ?_, ?_⟩
  · by_cases hk : (truthyOpt k && truthyOpt t) = true
    · cases post with
      | exception => simp [send_push, hk]
      | response st tx => by_cases h2 : (st == 200) = true <;>
          simp [send_push, hk, h2]
    · simp [send_push, Bool.eq_false_iff.mpr hk]
  · by_cases hk : (truthyOpt k && truthyOpt t) = true <;>
      simp [send_push, hk]
  · by_cases hk : (truthyOpt k && truthyOpt t) = true
    · by_cases h2 : (status == 200) = true <;> simp [send_push, hk, h2]
    · simp [send_push, hk]
  · rw [main_new inp current hf hne hnew]

theorem spec_C9_witness :
    (send_push (some "u") Option.none .exception "m").networkCalled =
        (truthyOpt (some "u") && truthyOpt Option.none) ∧
      send_push (some "u") Option.none .exception "m" =
        (if truthyOpt (some "u") && truthyOpt Option.none then
          ⟨true, some "m", .exceptionCaught⟩
         else ⟨false, Option.none, .keysMissing⟩) ∧
      send_push (some "u") Option.none (.response 500 "boom") "m" =
        (if truthyOpt (some "u") && truthyOpt Option.none then
          (if 500 == 200 then ⟨true, some "m", .sent⟩
           else ⟨true, some "m", .errorStatus 500 "boom"⟩)
         else ⟨false, Option.none, .keysMissing⟩) ∧
      (PdfMonitor.main exInputNew).fileAfter =
        save_links {"http://h/a.pdf", "http://h/b.pdf"} :=
  spec_C9_notify_best_effort (some "u") Option.none 500 "boom" "m"
    .exception exInputNew {"http://h/a.pdf", "http://h/b.pdf"} rfl
    (by decide) (by decide)

/-- C10: a parsed truthy non-list JSON value that is iterable does not load
as the empty set: a non-empty object yields the set of its keys, a
non-empty string the set of its characters; truthy non-iterables (non-zero
numbers, `true`) hit the warning path, and falsy values load as the empty
set without warning. -/
theorem spec_C10_truthy_nonlist_coercion (fields : List (String × Json))
    (s : String) (n : Int) (hfields : fields ≠ []) (hs : s.data ≠ [])
    (hn : n ≠ 0) :
    load_old_links (.parsed (.obj fields)) =
        ⟨(fields.map (fun kv => PyVal.str kv.1)).toFinset, false⟩ ∧
      (fields.map (fun kv => PyVal.str kv.1)).toFinset ≠ ∅ ∧
      load_old_links (.parsed (.str s)) =
        ⟨(s.data.map (fun c => PyVal.str (String.singleton c))).toFinset,
          false⟩ ∧
      (s.data.map (fun c => PyVal.str (String.singleton c))).toFinset ≠ ∅ ∧
      load_old_links (.parsed (.num n)) = ⟨∅, true⟩ ∧
      load_old_links (.parsed (.bool true)) = ⟨∅, true⟩ ∧
      load_old_links (.parsed Json.null) = ⟨∅, false⟩ ∧
      load_old_links (.parsed (.num 0)) = ⟨∅, false⟩ ∧
      load_old_links (.parsed (.obj [])) = ⟨∅, false⟩ ∧
      load_old_links (.parsed (.str "")) = ⟨∅, false⟩ := by
  refine ⟨?_, ?_, ?_, ?_, ?_, rfl, rfl, rfl, rfl, rfl⟩
  · simp [load_old_links, Json.truthy, pySetOfOther, hfields]
  · cases fields with
    | nil => exact absurd rfl hfields
    | cons a t => simp
  · simp [load_old_links, Json.truthy, pySetOfOther, hs]
  · cases hsd : s.data with
    | nil => exact absurd hsd hs
    | cons c cs => simp [hsd]
  · simp [load_old_links, Json.truthy, pySetOfOther, hn]

theorem spec_C10_witness :
    load_old_links (.parsed (.obj [("k", Json.null)])) =
        ⟨([("k", Json.null)].map (fun kv => PyVal.str kv.1)).toFinset,
          false⟩ ∧
      ([("k", Json.null)].map (fun kv => PyVal.str kv.1)).toFinset ≠ ∅ ∧
      load_old_links (.parsed (.str "ab")) =
        ⟨("ab".data.map (fun c => PyVal.str (String.singleton c))).toFinset,
          false⟩ ∧
      ("ab".data.map (fun c => PyVal.str (String.singleton c))).toFinset ≠ ∅ ∧
      load_old_links (.parsed (.num 5)) = ⟨∅, true⟩ ∧
      load_old_links (.parsed (.bool true)) = ⟨∅, true⟩ ∧
      load_old_links (.parsed Json.null) = ⟨∅, false⟩ ∧
      load_old_links (.parsed (.num 0)) = ⟨∅, false⟩ ∧
      load_old_links (.parsed (.obj [])) = ⟨∅, false⟩ ∧
      load_old_links (.parsed (.str "")) = ⟨∅, false⟩ :=
  spec_C10_truthy_nonlist_coercion [("k", Json.null)] "ab" 5
    (List.cons_ne_nil _ _) (by decide) (by decide)
